import Mathlib

/-!
# The Draco transcoder driver (`src/draco/tools/draco_transcoder_lib.cc`)

A shallow embedding of `DracoTranscoder`: construction (`Create`), the three
phases (`ReadScene` / `ReadSceneStream`, `CompressScene`, `WriteScene` /
`WriteSceneStream`) and the two drivers (`Transcode`, `TranscodeStream`).

* The decoder, the encoder and the options check are code outside this file;
  they are the fields of `Collaborators` and stay uninterpreted.
* Every invocation of a collaborator is appended to a ghost log (`World.calls`),
  so that "the encoder is never invoked" is a statement about the log.
* Streams carry their state flags and open mode: the source never tests or
  clears them, so a stream that has failed answers -1 to every position query.
* A member function that dereferences an empty `scene_`, or takes `&buf[0]` of an
  empty vector, has no defined result; such functions return `Option`, and `none`
  stands for that step.
-/

namespace draco

/-- One `char` of a stream or buffer. -/
abbrev Byte := Nat

/-- Modelled from the spec: the enumeration `Status::Code` is declared in
`draco/core/status.h`, which is not among the sources. The enumerators this file
names (`OK` through `OkStatus()`, `DRACO_ERROR`, `IO_ERROR`) are kept; any other
code a collaborator may return is `other`. -/
inductive Code where
  | OK
  | DRACO_ERROR
  | IO_ERROR
  | other (tag : Nat)
  deriving DecidableEq

/-- The class `Status`: a code and an error message. -/
structure Status where
  code : Code
  error_msg : String
  deriving DecidableEq

/-- The method `Status::ok()`. -/
def Status.ok (s : Status) : Bool := decide (s.code = Code.OK)

/-- The function `OkStatus()`. -/
def OkStatus : Status := Status.mk Code.OK ""

/-- The class `StatusOr<T>`: a status together with a value slot. For
`T = std::unique_ptr<...>` an empty slot is the null pointer. -/
structure StatusOr (α : Type) where
  status : Status
  value : Option α
  deriving DecidableEq

/-- The method `StatusOr::ok()`. -/
def StatusOr.ok {α : Type} (r : StatusOr α) : Bool := r.status.ok

/-- Modelled from the spec: a geometric sub-element of a scene (`Mesh`, declared
outside the sources). Its per-element compression settings are explicit (`none`:
no settings stamped yet); everything else it holds is `payload`. -/
structure Mesh (Opt X : Type) where
  payload : X
  compression_options : Option Opt
  deriving DecidableEq

/-- Modelled from the spec: the class `Scene` (declared outside the sources): its
geometric sub-elements, and everything else (materials, structure) as `payload`. -/
structure Scene (Opt X : Type) where
  meshes : List (Mesh Opt X)
  payload : X
  deriving DecidableEq

/-- Modelled from the spec: `SceneUtils::SetDracoCompressionOptions`
(`draco/scene/scene_utils.cc`, not among the sources) "iterates every geometric
sub-element of the scene and stamps the orchestrator's validated
CompressionOptions onto it, in place, overwriting any prior per-element
settings". -/
def SetDracoCompressionOptions {Opt X : Type} (options : Opt) (scene : Scene Opt X) :
    Scene Opt X :=
  { scene with
    meshes := scene.meshes.map (fun m => { m with compression_options := some options }) }

/-- The struct `DracoTranscodingOptions`: the field `geometry` this file reads and
writes, and whatever other fields it declares as `rest`. -/
structure DracoTranscodingOptions (Opt R : Type) where
  geometry : Opt
  rest : R
  deriving DecidableEq

/-- The struct `DracoTranscoder::FileOptions`. -/
structure FileOptions where
  input_filename : String
  output_filename : String
  output_bin_filename : String
  output_resource_directory : String
  deriving DecidableEq

/-- The data members of `DracoTranscoder` that this file reads or writes.
`scene_` is a `std::unique_ptr<Scene>`; `none` is the null pointer. The member
`gltf_encoder_` is represented by the encoder fields of `Collaborators`. -/
structure DracoTranscoder (Opt R X : Type) where
  transcoding_options_ : DracoTranscodingOptions Opt R
  scene_ : Option (Scene Opt X)
  deriving DecidableEq

/-- One invocation of a collaborator, with its arguments. -/
inductive Call (Opt X : Type) where
  | ReadSceneFromFile (input_filename : String)
  | DecodeFromBufferToScene (buffer : List Byte)
  | SetDracoCompressionOptions (options : Opt) (scene : Scene Opt X)
  | EncodeFile (scene : Scene Opt X) (output_filename : String)
  | EncodeFile_bin (scene : Scene Opt X) (output_filename output_bin_filename : String)
  | EncodeFile_bin_dir (scene : Scene Opt X)
      (output_filename output_bin_filename output_resource_directory : String)
  | EncodeToBuffer (scene : Scene Opt X)
  deriving DecidableEq

/-- The call goes to the decode collaborator. -/
def Call.isDecode {Opt X : Type} : Call Opt X → Bool
  | Call.ReadSceneFromFile _ => true
  | Call.DecodeFromBufferToScene _ => true
  | _ => false

/-- The call goes to the encode collaborator. -/
def Call.isEncode {Opt X : Type} : Call Opt X → Bool
  | Call.EncodeFile _ _ => true
  | Call.EncodeFile_bin _ _ _ => true
  | Call.EncodeFile_bin_dir _ _ _ _ => true
  | Call.EncodeToBuffer _ => true
  | _ => false

/-- The code outside this file that the transcoder calls.
`Check` is `DracoCompressionOptions::Check`, `ReadSceneFromFile` the function of
`draco/io/scene_io.h`, `DecodeFromBufferToScene` the method of `GltfDecoder`, and
the three `EncodeFile*` fields the overloads of `GltfEncoder::EncodeFile<Scene>`
with one, two and three path arguments. `EncodeToBuffer` returns its status and
the content it left in the `EncoderBuffer`. -/
structure Collaborators (Opt X : Type) where
  Check : Opt → Status
  ReadSceneFromFile : String → StatusOr (Scene Opt X)
  DecodeFromBufferToScene : List Byte → StatusOr (Scene Opt X)
  EncodeFile : Scene Opt X → String → Status
  EncodeFile_bin : Scene Opt X → String → String → Status
  EncodeFile_bin_dir : Scene Opt X → String → String → String → Status
  EncodeToBuffer : Scene Opt X → Status × List Byte

/-- The transcoder object (`self`) and the ghost log of collaborator calls made
so far, oldest first. -/
structure World (Opt R X : Type) where
  self : DracoTranscoder Opt R X
  calls : List (Call Opt X)
  deriving DecidableEq

/-- Append one call to the log. -/
def World.record {Opt R X : Type} (w : World Opt R X) (c : Call Opt X) : World Opt R X :=
  { w with calls := w.calls ++ [c] }

/-- Store a freshly decoded scene pointer in `scene_`. -/
def World.setScene {Opt R X : Type} (w : World Opt R X) (p : Option (Scene Opt X)) :
    World Opt R X :=
  { w with self := { w.self with scene_ := p } }

/-! ## Streams -/

/-- The stream classes the stream templates are instantiated with. -/
inductive StreamKind where
  | fstream
  | stringstream
  deriving DecidableEq

/-- The direction argument of `seekg`. -/
inductive seekdir where
  | beg
  | end_
  deriving DecidableEq

/-- A `std::fstream` or `std::stringstream` without character translation
(binary mode): its kind, whether a file is open (`fstream` only), its open mode
(`ios::in`, `ios::out`), its byte content, its get and put positions, and its
state flags. An `fstream` has one file position, held in both position fields.
Positions are meant not to exceed the length of the content. -/
structure Stream where
  kind : StreamKind
  is_open : Bool
  mode_in : Bool
  mode_out : Bool
  data : List Byte
  gpos : Nat
  ppos : Nat
  eofbit : Bool
  failbit : Bool
  badbit : Bool
  deriving DecidableEq

/-- The query `fail()`. -/
def Stream.fail (s : Stream) : Bool := s.failbit || s.badbit

/-- The query `good()`. -/
def Stream.good (s : Stream) : Bool := !s.eofbit && !s.failbit && !s.badbit

/-- Whether `rdbuf()->pubseekoff(off, dir, ios_base::in)` can succeed: a file
buffer repositions any open file, a string buffer only one opened with `ios::in`. -/
def Stream.seekable (s : Stream) : Bool :=
  match s.kind with
  | StreamKind.fstream => s.is_open
  | StreamKind.stringstream => s.mode_in

/-- Whether the buffer delivers characters to a read. -/
def Stream.readable (s : Stream) : Bool :=
  match s.kind with
  | StreamKind.fstream => s.is_open && s.mode_in
  | StreamKind.stringstream => s.mode_in

/-- Whether the buffer accepts characters from a write. -/
def Stream.writable (s : Stream) : Bool :=
  match s.kind with
  | StreamKind.fstream => s.is_open && s.mode_out
  | StreamKind.stringstream => s.mode_out

/-- Move the get position; on an `fstream` this is the one file position. -/
def Stream.setg (s : Stream) (n : Nat) : Stream :=
  match s.kind with
  | StreamKind.fstream => { s with gpos := n, ppos := n }
  | StreamKind.stringstream => { s with gpos := n }

/-- The call `stream->seekg(off, dir)`: clears `eofbit`; on a stream that has
failed it only sets `failbit`; otherwise it repositions, and sets `failbit` when
the buffer cannot reposition or the target lies outside the content. -/
def Stream.seekg (s : Stream) (off : Nat) (dir : seekdir) : Stream :=
  let s0 := { s with eofbit := false }
  if s0.fail then { s0 with failbit := true }
  else if !s0.seekable then { s0 with failbit := true }
  else
    let target := match dir with
      | seekdir.beg => off
      | seekdir.end_ => s0.data.length + off
    if target ≤ s0.data.length then s0.setg target else { s0 with failbit := true }

/-- The call `stream->tellg()`, with the stream as it leaves it: on a stream that
is not good the sentry sets `failbit` and the answer is -1; the answer is also -1
when the buffer cannot report a position. -/
def Stream.tellg (s : Stream) : Int × Stream :=
  if !s.good then (-1, { s with failbit := true })
  else if !s.seekable then (-1, s)
  else ((s.gpos : Int), s)

/-- The call `stream->read(buf, n)` into a buffer of at least `n` bytes: on a
stream that is not good it sets `failbit` and copies nothing; otherwise it copies
up to `n` bytes from the get position over the front of `buf`, advances the
position by the number copied, and sets `eofbit` and `failbit` when fewer than
`n` bytes were available. -/
def Stream.read (s : Stream) (buf : List Byte) (n : Nat) : List Byte × Stream :=
  if !s.good then (buf, { s with failbit := true })
  else
    let got := if s.readable then (s.data.drop s.gpos).take n else []
    let s1 := s.setg (s.gpos + got.length)
    (got ++ buf.drop got.length,
      if got.length < n then { s1 with eofbit := true, failbit := true } else s1)

/-- The call `stream->write(bytes, size)`: on a stream that is not good it sets
`failbit` and stores nothing; when the buffer accepts no characters it sets
`badbit` (unless there is nothing to store); otherwise it stores the bytes at
the put position, overwriting what is there and extending the content. -/
def Stream.write (s : Stream) (bytes : List Byte) : Stream :=
  if !s.good then { s with failbit := true }
  else if !s.writable then (if bytes = [] then s else { s with badbit := true })
  else
    let s1 := { s with
      data := s.data.take s.ppos ++ bytes ++ s.data.drop (s.ppos + bytes.length)
      ppos := s.ppos + bytes.length }
    match s.kind with
    | StreamKind.fstream => { s1 with gpos := s1.ppos }
    | StreamKind.stringstream => s1

/-! ## The transcoder -/

section Transcoder

variable {Opt R X : Type}

/-- The function `DracoTranscoder::Create(const DracoTranscodingOptions &)`. -/
def Create (env : Collaborators Opt X) (options : DracoTranscodingOptions Opt R) :
    StatusOr (DracoTranscoder Opt R X) :=
  let st := env.Check options.geometry
  if !st.ok then
    { status := st, value := none }
  else
    { status := OkStatus
      value := some { transcoding_options_ := options, scene_ := none } }

/-- The function `DracoTranscoder::Create(const DracoCompressionOptions &)`:
default-constructed transcoding options with `geometry` overwritten. -/
def Create_compression [Inhabited R] (env : Collaborators Opt X) (options : Opt) :
    StatusOr (DracoTranscoder Opt R X) :=
  let new_options : DracoTranscodingOptions Opt R := { geometry := options, rest := default }
  Create env new_options

/-- The method `DracoTranscoder::ReadScene`. -/
def ReadScene (env : Collaborators Opt X) (w : World Opt R X) (file_options : FileOptions) :
    Status × World Opt R X :=
  if file_options.input_filename = "" then
    (Status.mk Code.DRACO_ERROR "Input filename is empty.", w)
  else if file_options.output_filename = "" then
    (Status.mk Code.DRACO_ERROR "Output filename is empty.", w)
  else
    let r := env.ReadSceneFromFile file_options.input_filename
    let w1 := w.record (Call.ReadSceneFromFile file_options.input_filename)
    if !r.ok then (r.status, w1)
    else (OkStatus, w1.setScene r.value)

/-- The method `DracoTranscoder::ReadSceneStream<T>`. `std::vector<char> buf(size)`
has no element 0 when `size` is 0, so `&buf[0]` is then not defined (and a
negative `size` is no vector length): the result is `none`. -/
def ReadSceneStream (env : Collaborators Opt X) (w : World Opt R X) (stream : Stream) :
    Option (Status × World Opt R X × Stream) :=
  let s1 := stream.seekg 0 seekdir.beg
  let t1 := s1.tellg
  let s2 := t1.2.seekg 0 seekdir.end_
  let t2 := s2.tellg
  let size : Int := t2.1 - t1.1
  if size ≤ 0 then none
  else
    let buf0 : List Byte := List.replicate size.toNat 0
    let s3 := t2.2.seekg 0 seekdir.beg
    let rd := s3.read buf0 size.toNat
    let buffer : List Byte := rd.1.take size.toNat
    let r := env.DecodeFromBufferToScene buffer
    let w1 := w.record (Call.DecodeFromBufferToScene buffer)
    if !r.ok then some (r.status, w1, rd.2)
    else some (OkStatus, w1.setScene r.value, rd.2)

/-- The method `DracoTranscoder::WriteScene`. Every branch evaluates `*scene_`. -/
def WriteScene (env : Collaborators Opt X) (w : World Opt R X) (file_options : FileOptions) :
    Option (Status × World Opt R X) :=
  match w.self.scene_ with
  | none => none
  | some scene =>
    if file_options.output_bin_filename ≠ "" ∧ file_options.output_resource_directory ≠ "" then
      let st := env.EncodeFile_bin_dir scene file_options.output_filename
        file_options.output_bin_filename file_options.output_resource_directory
      let w1 := w.record (Call.EncodeFile_bin_dir scene file_options.output_filename
        file_options.output_bin_filename file_options.output_resource_directory)
      if !st.ok then some (st, w1) else some (OkStatus, w1)
    else if file_options.output_bin_filename ≠ "" then
      let st := env.EncodeFile_bin scene file_options.output_filename
        file_options.output_bin_filename
      let w1 := w.record (Call.EncodeFile_bin scene file_options.output_filename
        file_options.output_bin_filename)
      if !st.ok then some (st, w1) else some (OkStatus, w1)
    else
      let st := env.EncodeFile scene file_options.output_filename
      let w1 := w.record (Call.EncodeFile scene file_options.output_filename)
      if !st.ok then some (st, w1) else some (OkStatus, w1)

/-- The method `DracoTranscoder::WriteSceneStream<T>`. The emptiness test comes
before the first evaluation of `*scene_`. -/
def WriteSceneStream (env : Collaborators Opt X) (w : World Opt R X) (stream : Stream) :
    Option (Status × World Opt R X × Stream) :=
  let s1 := stream.seekg 0 seekdir.beg
  let t1 := s1.tellg
  let s2 := t1.2.seekg 0 seekdir.end_
  let t2 := s2.tellg
  if t1.1 ≠ t2.1 then
    some (Status.mk Code.IO_ERROR "Output Stream contains data. Make sure stream has no data.",
      w, t2.2)
  else
    match w.self.scene_ with
    | none => none
    | some scene =>
      let enc := env.EncodeToBuffer scene
      let w1 := w.record (Call.EncodeToBuffer scene)
      if !enc.1.ok then some (enc.1, w1, t2.2)
      else some (OkStatus, w1, t2.2.write enc.2)

/-- The method `DracoTranscoder::CompressScene`. The helper walks the scene behind
`scene_.get()`. -/
def CompressScene (w : World Opt R X) : Option (Status × World Opt R X) :=
  match w.self.scene_ with
  | none => none
  | some scene =>
    let options := w.self.transcoding_options_.geometry
    let w1 := w.record (Call.SetDracoCompressionOptions options scene)
    some (OkStatus, w1.setScene (some (SetDracoCompressionOptions options scene)))

/-- The method `DracoTranscoder::Transcode`. -/
def Transcode (env : Collaborators Opt X) (w : World Opt R X) (file_options : FileOptions) :
    Option (Status × World Opt R X) :=
  let r1 := ReadScene env w file_options
  if !r1.1.ok then some r1
  else
    match CompressScene r1.2 with
    | none => none
    | some r2 =>
      if !r2.1.ok then some r2
      else
        match WriteScene env r2.2 file_options with
        | none => none
        | some r3 => if !r3.1.ok then some r3 else some (OkStatus, r3.2)

/-- The method `DracoTranscoder::TranscodeStream<U, V>`. -/
def TranscodeStream (env : Collaborators Opt X) (w : World Opt R X)
    (in_stream out_stream : Stream) : Option (Status × World Opt R X × Stream × Stream) :=
  match ReadSceneStream env w in_stream with
  | none => none
  | some r1 =>
    if !r1.1.ok then some (r1.1, r1.2.1, r1.2.2, out_stream)
    else
      match CompressScene r1.2.1 with
      | none => none
      | some r2 =>
        if !r2.1.ok then some (r2.1, r2.2, r1.2.2, out_stream)
        else
          match WriteSceneStream env r2.2 out_stream with
          | none => none
          | some r3 =>
            if !r3.1.ok then some (r3.1, r3.2.1, r1.2.2, r3.2.2)
            else some (OkStatus, r3.2.1, r1.2.2, r3.2.2)

end Transcoder

/-! ## Concrete collaborators and inputs used to instantiate the theorems -/

/-- A scene with two meshes, one of them already carrying settings. -/
def scene0 : Scene Nat Nat :=
  { meshes := [{ payload := 7, compression_options := none },
               { payload := 8, compression_options := some 3 }]
    payload := 0 }

/-- Collaborators that accept compression levels up to 10, decode the file
`in.gltf` and the buffer `[1, 2, 3]` to `scene0`, and refuse to encode to the
file `locked.glb`. -/
def env0 : Collaborators Nat Nat where
  Check o := if o ≤ 10 then OkStatus else Status.mk (Code.other 3) "Level out of range."
  ReadSceneFromFile p :=
    if p = "in.gltf" then { status := OkStatus, value := some scene0 }
    else { status := Status.mk Code.IO_ERROR "Unable to read input file.", value := none }
  DecodeFromBufferToScene b :=
    if b = [1, 2, 3] then { status := OkStatus, value := some scene0 }
    else { status := Status.mk Code.DRACO_ERROR "Failed to parse.", value := none }
  EncodeFile _ p :=
    if p = "locked.glb" then Status.mk Code.IO_ERROR "Unable to write." else OkStatus
  EncodeFile_bin _ p _ :=
    if p = "locked.glb" then Status.mk Code.IO_ERROR "Unable to write." else OkStatus
  EncodeFile_bin_dir _ p _ _ :=
    if p = "locked.glb" then Status.mk Code.IO_ERROR "Unable to write." else OkStatus
  EncodeToBuffer sc := (OkStatus, [sc.meshes.length, 42])

/-- A transcoder as `Create` returns it (no scene), with an empty call log. -/
def fresh0 : World Nat Unit Nat :=
  { self := { transcoding_options_ := { geometry := 5, rest := () }, scene_ := none }
    calls := [] }

/-- A transcoder that holds `scene0`. -/
def loaded0 : World Nat Unit Nat :=
  { self := { transcoding_options_ := { geometry := 5, rest := () }, scene_ := some scene0 }
    calls := [] }

/-- File options whose output file the encoder of `env0` refuses. -/
def files0 : FileOptions := FileOptions.mk "in.gltf" "locked.glb" "" ""

/-- A `std::stringstream` opened for reading and writing, in good state. -/
def sstream (data : List Byte) (gpos ppos : Nat) : Stream :=
  { kind := StreamKind.stringstream, is_open := true, mode_in := true, mode_out := true
    data := data, gpos := gpos, ppos := ppos
    eofbit := false, failbit := false, badbit := false }

/-- A source stream holding `[1, 2, 3]`, read up to position 2. -/
def source0 : Stream := sstream [1, 2, 3] 2 3

/-- An empty destination stream. -/
def sink0 : Stream := sstream [] 0 0

/-- File options whose input file the decoder of `env0` cannot read. -/
def files1 : FileOptions := FileOptions.mk "missing.gltf" "out.glb" "out.bin" "res"

/-- A source stream whose content the decoder of `env0` cannot parse. -/
def source1 : Stream := sstream [9] 0 1

/-- A destination stream that already holds one byte. -/
def full0 : Stream := sstream [7] 0 1

section Theorems

variable {Opt R X : Type}

/-! ### Shared facts about streams -/

/-- On a stream that has not failed and can be repositioned, the two position
queries of the size measurement answer 0 and the length of the content, and
leave the stream with its content, good, at the end of the content. -/
theorem Stream.measure_positionable (s : Stream) (hf : s.fail = false)
    (hs : s.seekable = true) :
    (s.seekg 0 seekdir.beg).tellg.1 = 0 ∧
    ((s.seekg 0 seekdir.beg).tellg.2.seekg 0 seekdir.end_).tellg.1 = (s.data.length : Int) ∧
    ((s.seekg 0 seekdir.beg).tellg.2.seekg 0 seekdir.end_).tellg.2 =
      ({ s with eofbit := false } : Stream).setg s.data.length := by
  rcases s with ⟨kind, is_open, mode_in, mode_out, data, gpos, ppos, eofbit, failbit, badbit⟩
  simp only [Stream.fail, Bool.or_eq_false_iff] at hf
  obtain ⟨hf1, hf2⟩ := hf
  subst hf1
  subst hf2
  cases kind <;>
    simp_all [Stream.seekable, Stream.seekg, Stream.tellg, Stream.fail, Stream.good, Stream.setg]

/-- On a stream that has failed, or that cannot be repositioned, both position
queries of the size measurement answer -1, and the stream is left failed with
its content. -/
theorem Stream.measure_failed (s : Stream) (h : s.fail = true ∨ s.seekable = false) :
    (s.seekg 0 seekdir.beg).tellg.1 = -1 ∧
    ((s.seekg 0 seekdir.beg).tellg.2.seekg 0 seekdir.end_).tellg.1 = -1 ∧
    ((s.seekg 0 seekdir.beg).tellg.2.seekg 0 seekdir.end_).tellg.2.fail = true ∧
    ((s.seekg 0 seekdir.beg).tellg.2.seekg 0 seekdir.end_).tellg.2.data = s.data := by
  rcases s with ⟨kind, is_open, mode_in, mode_out, data, gpos, ppos, eofbit, failbit, badbit⟩
  cases kind <;> cases failbit <;> cases badbit <;> cases is_open <;> cases mode_in <;>
    simp_all [Stream.seekable, Stream.seekg, Stream.tellg, Stream.fail, Stream.good,
      Stream.setg]

/-! ### Shared facts about the phases -/

/-- The status `OkStatus()` is ok. -/
theorem OkStatus_ok : OkStatus.ok = true := rfl

/-- A successful `ReadScene` made one decoder call and stored its value. -/
theorem ReadScene_ok (env : Collaborators Opt X) (w : World Opt R X)
    (file_options : FileOptions) (h : (ReadScene env w file_options).1.ok = true) :
    (env.ReadSceneFromFile file_options.input_filename).ok = true ∧
    ReadScene env w file_options =
      (OkStatus, (w.record (Call.ReadSceneFromFile file_options.input_filename)).setScene
        (env.ReadSceneFromFile file_options.input_filename).value) := by
  by_cases hi : file_options.input_filename = ""
  · simp [ReadScene, hi, Status.ok] at h
  · by_cases ho : file_options.output_filename = ""
    · simp [ReadScene, hi, ho, Status.ok] at h
    · by_cases hc : (env.ReadSceneFromFile file_options.input_filename).status.code = Code.OK
      · simp [ReadScene, hi, ho, hc, StatusOr.ok, Status.ok]
      · simp [ReadScene, hi, ho, hc, StatusOr.ok, Status.ok] at h

/-- With a scene in the slot `CompressScene` returns `OkStatus` after one call
of the helper. -/
theorem CompressScene_of_scene (w : World Opt R X) (scene : Scene Opt X)
    (h : w.self.scene_ = some scene) :
    CompressScene w = some (OkStatus,
      (w.record (Call.SetDracoCompressionOptions w.self.transcoding_options_.geometry
        scene)).setScene
        (some (SetDracoCompressionOptions w.self.transcoding_options_.geometry scene))) := by
  simp only [CompressScene, h]

/-- With a scene in the slot `WriteScene` returns after one encoder call. -/
theorem WriteScene_of_scene (env : Collaborators Opt X) (w : World Opt R X)
    (file_options : FileOptions) (scene : Scene Opt X) (h : w.self.scene_ = some scene) :
    ∃ c st, c.isEncode = true ∧
      WriteScene env w file_options =
        some (if (!st.ok) = true then st else OkStatus, w.record c) := by
  by_cases hb : file_options.output_bin_filename = ""
  · exact ⟨Call.EncodeFile scene file_options.output_filename,
      env.EncodeFile scene file_options.output_filename, rfl, by
        by_cases hc : (env.EncodeFile scene file_options.output_filename).code = Code.OK <;>
          simp [WriteScene, h, hb, hc, Status.ok]⟩
  · by_cases hd : file_options.output_resource_directory = ""
    · exact ⟨Call.EncodeFile_bin scene file_options.output_filename
          file_options.output_bin_filename,
        env.EncodeFile_bin scene file_options.output_filename file_options.output_bin_filename,
        rfl, by
          by_cases hc : (env.EncodeFile_bin scene file_options.output_filename
              file_options.output_bin_filename).code = Code.OK <;>
            simp [WriteScene, h, hb, hd, hc, Status.ok]⟩
    · exact ⟨Call.EncodeFile_bin_dir scene file_options.output_filename
          file_options.output_bin_filename file_options.output_resource_directory,
        env.EncodeFile_bin_dir scene file_options.output_filename
          file_options.output_bin_filename file_options.output_resource_directory,
        rfl, by
          by_cases hc : (env.EncodeFile_bin_dir scene file_options.output_filename
              file_options.output_bin_filename
              file_options.output_resource_directory).code = Code.OK <;>
            simp [WriteScene, h, hb, hd, hc, Status.ok]⟩

/-- Whenever `ReadSceneStream` returns, it has made exactly one decoder call, on
some buffer: with an ok answer it returns `OkStatus` and has stored the decoder's
value; otherwise it returns the decoder's status and leaves the transcoder. -/
theorem ReadSceneStream_some (env : Collaborators Opt X) (w : World Opt R X)
    (stream : Stream) (r : Status × World Opt R X × Stream)
    (h : ReadSceneStream env w stream = some r) :
    ∃ buffer,
      ((env.DecodeFromBufferToScene buffer).ok = true ∧ r.1 = OkStatus ∧
        r.2.1 = (w.record (Call.DecodeFromBufferToScene buffer)).setScene
          (env.DecodeFromBufferToScene buffer).value) ∨
      ((env.DecodeFromBufferToScene buffer).ok = false ∧
        r.1 = (env.DecodeFromBufferToScene buffer).status ∧
        r.2.1 = w.record (Call.DecodeFromBufferToScene buffer)) := by
  unfold ReadSceneStream at h
  simp only at h
  split_ifs at h with hsz hok
  · cases h
    exact ⟨_, Or.inr ⟨by simpa using hok, rfl, rfl⟩⟩
  · cases h
    exact ⟨_, Or.inl ⟨by simpa using hok, rfl, rfl⟩⟩

/-- On a source stream that has not failed, delivers characters and is not
empty, `ReadSceneStream` returns: it calls the decoder on the whole content and
leaves the stream good, positioned at the end of the content. -/
theorem ReadSceneStream_readable (env : Collaborators Opt X) (w : World Opt R X)
    (stream : Stream) (hf : stream.fail = false) (hr : stream.readable = true)
    (hne : stream.data ≠ []) :
    ReadSceneStream env w stream =
      some (if (!(env.DecodeFromBufferToScene stream.data).ok) = true then
          ((env.DecodeFromBufferToScene stream.data).status,
            w.record (Call.DecodeFromBufferToScene stream.data),
            ({ stream with eofbit := false } : Stream).setg stream.data.length)
        else
          (OkStatus,
            (w.record (Call.DecodeFromBufferToScene stream.data)).setScene
              (env.DecodeFromBufferToScene stream.data).value,
            ({ stream with eofbit := false } : Stream).setg stream.data.length)) := by
  have hlen : 0 < stream.data.length := List.length_pos.mpr hne
  rcases stream with ⟨kind, is_open, mode_in, mode_out, data, gpos, ppos, eofbit, failbit, badbit⟩
  simp only [Stream.fail, Bool.or_eq_false_iff] at hf
  obtain ⟨hf1, hf2⟩ := hf
  subst hf1
  subst hf2
  have hpos : ¬ ((data.length : Int) ≤ 0) := by
    simp only at hlen
    omega
  cases kind <;>
    (simp_all [ReadSceneStream, Stream.readable, Stream.seekable, Stream.seekg, Stream.tellg,
      Stream.fail, Stream.good, Stream.setg, Stream.read]
     split <;> rfl)

/-- With a scene in the slot `WriteSceneStream` returns: either the emptiness test
fails and nothing is called, or one encoder call is made. -/
theorem WriteSceneStream_of_scene (env : Collaborators Opt X) (w : World Opt R X)
    (stream : Stream) (scene : Scene Opt X) (h : w.self.scene_ = some scene) :
    ∃ r, WriteSceneStream env w stream = some r ∧
      ((r.1.ok = false ∧ r.2.1 = w) ∨ r.2.1 = w.record (Call.EncodeToBuffer scene)) := by
  unfold WriteSceneStream
  simp only [h]
  split_ifs with he hok
  · exact ⟨_, rfl, Or.inl ⟨rfl, rfl⟩⟩
  · exact ⟨_, rfl, Or.inr rfl⟩
  · exact ⟨_, rfl, Or.inr rfl⟩

/-- Every error `WriteSceneStream` returns is the `IO_ERROR` of its emptiness
test, returned before anything is called, or the status of its encoder call. -/
theorem WriteSceneStream_errors (env : Collaborators Opt X) (w : World Opt R X)
    (stream : Stream) (r : Status × World Opt R X × Stream)
    (h : WriteSceneStream env w stream = some r) (hr : r.1.ok = false) :
    (r.1 = Status.mk Code.IO_ERROR
        "Output Stream contains data. Make sure stream has no data." ∧ r.2.1 = w) ∨
    (∃ scene, w.self.scene_ = some scene ∧ r.1 = (env.EncodeToBuffer scene).1 ∧
      r.2.1 = w.record (Call.EncodeToBuffer scene)) := by
  unfold WriteSceneStream at h
  simp only at h
  split_ifs at h with he
  · cases h
    exact Or.inl ⟨rfl, rfl⟩
  · cases hs : w.self.scene_ with
    | none => simp [hs] at h
    | some scene =>
      simp only [hs] at h
      split_ifs at h with hok
      · cases h
        exact Or.inr ⟨scene, rfl, rfl, rfl⟩
      · cases h
        exact absurd hr (by simp [OkStatus_ok])

/-- On a destination that has not failed, can be repositioned and is not empty,
`WriteSceneStream` returns the `IO_ERROR` of its emptiness test, with or without
a scene, and calls nothing. -/
theorem WriteSceneStream_positionable_nonempty (env : Collaborators Opt X)
    (w : World Opt R X) (stream : Stream) (hf : stream.fail = false)
    (hs : stream.seekable = true) (hne : stream.data ≠ []) :
    WriteSceneStream env w stream =
      some (Status.mk Code.IO_ERROR "Output Stream contains data. Make sure stream has no data.",
        w, ({ stream with eofbit := false } : Stream).setg stream.data.length) := by
  obtain ⟨h1, h2, h3⟩ := Stream.measure_positionable stream hf hs
  have hlen : 0 < stream.data.length := List.length_pos.mpr hne
  have hne2 : ¬ ((0 : Int) = (stream.data.length : Int)) := by omega
  simp only [WriteSceneStream, h1, h2, h3]
  simp [hne2]

/-- On a destination that has failed or cannot be repositioned, and on an empty
one, the emptiness test of `WriteSceneStream` is passed. -/
theorem WriteSceneStream_test_passed (env : Collaborators Opt X) (w : World Opt R X)
    (stream : Stream)
    (h : stream.fail = true ∨ stream.seekable = false ∨ stream.data = []) :
    WriteSceneStream env w stream =
      match w.self.scene_ with
      | none => none
      | some scene =>
        if (!(env.EncodeToBuffer scene).1.ok) = true then
          some ((env.EncodeToBuffer scene).1, w.record (Call.EncodeToBuffer scene),
            ((stream.seekg 0 seekdir.beg).tellg.2.seekg 0 seekdir.end_).tellg.2)
        else
          some (OkStatus, w.record (Call.EncodeToBuffer scene),
            (((stream.seekg 0 seekdir.beg).tellg.2.seekg 0 seekdir.end_).tellg.2).write
              (env.EncodeToBuffer scene).2) := by
  have heq : (stream.seekg 0 seekdir.beg).tellg.1 =
      ((stream.seekg 0 seekdir.beg).tellg.2.seekg 0 seekdir.end_).tellg.1 := by
    by_cases hp : stream.fail = true ∨ stream.seekable = false
    · obtain ⟨h1, h2, _⟩ := Stream.measure_failed stream hp
      rw [h1, h2]
    · have hf : stream.fail = false := by
        cases hfv : stream.fail
        · rfl
        · exact absurd (Or.inl hfv) hp
      have hs : stream.seekable = true := by
        cases hsv : stream.seekable
        · exact absurd (Or.inr hsv) hp
        · rfl
      have hd : stream.data = [] := by
        rcases h with h | h | h
        · rw [hf] at h
          cases h
        · rw [hs] at h
          cases h
        · exact h
      obtain ⟨h1, h2, _⟩ := Stream.measure_positionable stream hf hs
      rw [h1, h2, hd]
      rfl
  unfold WriteSceneStream
  simp only [heq, ne_eq, not_true_eq_false, if_false]

/-- Every error `WriteScene` returns is the status of its encoder call. -/
theorem WriteScene_errors (env : Collaborators Opt X) (w : World Opt R X)
    (file_options : FileOptions) (r : Status × World Opt R X)
    (h : WriteScene env w file_options = some r) (hr : r.1.ok = false) :
    ∃ scene, w.self.scene_ = some scene ∧
      (r.1 = env.EncodeFile scene file_options.output_filename ∨
        r.1 = env.EncodeFile_bin scene file_options.output_filename
          file_options.output_bin_filename ∨
        r.1 = env.EncodeFile_bin_dir scene file_options.output_filename
          file_options.output_bin_filename file_options.output_resource_directory) := by
  cases hs : w.self.scene_ with
  | none => simp [WriteScene, hs] at h
  | some scene =>
    refine ⟨scene, rfl, ?_⟩
    unfold WriteScene at h
    simp only [hs] at h
    split_ifs at h
    · cases h
      exact Or.inr (Or.inr rfl)
    · cases h
      exact absurd hr (by simp [OkStatus_ok])
    · cases h
      exact Or.inr (Or.inl rfl)
    · cases h
      exact absurd hr (by simp [OkStatus_ok])
    · cases h
      exact Or.inl rfl
    · cases h
      exact absurd hr (by simp [OkStatus_ok])

/-- A failed `ReadScene` leaves the transcoder and has called at most the
decoder, once. -/
theorem ReadScene_failed (env : Collaborators Opt X) (w : World Opt R X)
    (file_options : FileOptions) (hf : (ReadScene env w file_options).1.ok = false) :
    (ReadScene env w file_options).2.self = w.self ∧
    ((ReadScene env w file_options).2.calls = w.calls ∨
      (ReadScene env w file_options).2.calls =
        w.calls ++ [Call.ReadSceneFromFile file_options.input_filename]) := by
  by_cases hi : file_options.input_filename = ""
  · simp [ReadScene, hi]
  · by_cases ho : file_options.output_filename = ""
    · simp [ReadScene, hi, ho]
    · by_cases hc : (env.ReadSceneFromFile file_options.input_filename).status.code = Code.OK
      · simp [ReadScene, hi, ho, hc, StatusOr.ok, Status.ok, OkStatus] at hf
      · simp [ReadScene, hi, ho, hc, StatusOr.ok, Status.ok, World.record]

/-- A failed `ReadSceneStream` leaves the transcoder and has called the decoder
once. -/
theorem ReadSceneStream_failed (env : Collaborators Opt X) (w : World Opt R X)
    (stream : Stream) (r : Status × World Opt R X × Stream)
    (h : ReadSceneStream env w stream = some r) (hf : r.1.ok = false) :
    r.2.1.self = w.self ∧
    ∃ buffer, r.2.1.calls = w.calls ++ [Call.DecodeFromBufferToScene buffer] := by
  obtain ⟨buffer, hcase⟩ := ReadSceneStream_some env w stream r h
  rcases hcase with ⟨_, hst, _⟩ | ⟨_, _, heq⟩
  · rw [hst] at hf
    exact absurd hf (by simp [OkStatus_ok])
  · rw [heq]
    exact ⟨rfl, buffer, rfl⟩

/-- The sequencing of `Transcode`, for a decoder whose ok results carry a scene. -/
theorem Transcode_sequencing (env : Collaborators Opt X) (w : World Opt R X)
    (file_options : FileOptions)
    (hfile : ∀ p, (env.ReadSceneFromFile p).ok = true → (env.ReadSceneFromFile p).value ≠ none) :
    ∃ r, Transcode env w file_options = some r ∧
      ((ReadScene env w file_options).1.ok = false → r = ReadScene env w file_options) ∧
      ((ReadScene env w file_options).1.ok = true →
        ∃ r2, CompressScene (ReadScene env w file_options).2 = some r2 ∧
          (r2.1.ok = false → r = r2) ∧
          (r2.1.ok = true →
            ∃ r3, WriteScene env r2.2 file_options = some r3 ∧
              (r3.1.ok = false → r = r3) ∧
              (r3.1.ok = true → r = (OkStatus, r3.2) ∧
                ∃ c1 c3 o sc, r.2.calls =
                    w.calls ++ [c1, Call.SetDracoCompressionOptions o sc, c3] ∧
                  c1.isDecode = true ∧ c3.isEncode = true))) ∧
      (r.1.ok = true ↔
        ((ReadScene env w file_options).1.ok = true ∧
          ∃ r2 r3, CompressScene (ReadScene env w file_options).2 = some r2 ∧
            r2.1.ok = true ∧ WriteScene env r2.2 file_options = some r3 ∧
            r3.1.ok = true)) := by
  by_cases h1 : (ReadScene env w file_options).1.ok = true
  · obtain ⟨hok, heq⟩ := ReadScene_ok env w file_options h1
    obtain ⟨sc, hsc⟩ := Option.ne_none_iff_exists'.mp (hfile _ hok)
    have hs1 : (ReadScene env w file_options).2.self.scene_ = some sc := by
      rw [heq]
      simpa [World.setScene] using hsc
    have hcomp := CompressScene_of_scene _ sc hs1
    obtain ⟨c, st, hc, hw⟩ := WriteScene_of_scene env
      (((ReadScene env w file_options).2.record (Call.SetDracoCompressionOptions
        (ReadScene env w file_options).2.self.transcoding_options_.geometry sc)).setScene
        (some (SetDracoCompressionOptions
          (ReadScene env w file_options).2.self.transcoding_options_.geometry sc)))
      file_options _ rfl
    have hcalls : ((((ReadScene env w file_options).2.record (Call.SetDracoCompressionOptions
        (ReadScene env w file_options).2.self.transcoding_options_.geometry sc)).setScene
        (some (SetDracoCompressionOptions
          (ReadScene env w file_options).2.self.transcoding_options_.geometry sc))).record
          c).calls =
        w.calls ++ [Call.ReadSceneFromFile file_options.input_filename,
          Call.SetDracoCompressionOptions
            (ReadScene env w file_options).2.self.transcoding_options_.geometry sc, c] := by
      rw [heq]
      simp [World.record, World.setScene]
    by_cases hst : st.code = Code.OK
    · have hst1 : st.ok = true := by simp [Status.ok, hst]
      have hw1 := hw
      simp only [hst1, Bool.not_true, Bool.false_eq_true, if_false] at hw1
      refine ⟨_, (by simp [Transcode, h1, hcomp, hw1, OkStatus_ok]; rfl), ?_, ?_, ?_⟩
      · intro hf
        rw [h1] at hf
        exact absurd hf (by decide)
      · intro _
        refine ⟨_, hcomp, ?_, ?_⟩
        · intro hf
          exact absurd hf (by simp [OkStatus_ok])
        · intro _
          refine ⟨_, hw1, ?_, ?_⟩
          · intro hf
            exact absurd hf (by simp [OkStatus_ok])
          · intro _
            exact ⟨rfl, _, c, _, sc, hcalls, rfl, hc⟩
      · constructor
        · intro _
          exact ⟨h1, _, _, hcomp, OkStatus_ok, hw1, OkStatus_ok⟩
        · intro _
          exact OkStatus_ok
    · have hst0 : st.ok = false := by simp [Status.ok, hst]
      have hw0 := hw
      simp only [hst0, Bool.not_false, if_true] at hw0
      refine ⟨_, (by simp [Transcode, h1, hcomp, hw0, OkStatus_ok, hst0]; rfl), ?_, ?_, ?_⟩
      · intro hf
        rw [h1] at hf
        exact absurd hf (by decide)
      · intro _
        refine ⟨_, hcomp, ?_, ?_⟩
        · intro hf
          exact absurd hf (by simp [OkStatus_ok])
        · intro _
          refine ⟨_, hw0, ?_, ?_⟩
          · intro _
            rfl
          · intro hf
            rw [hst0] at hf
            exact absurd hf (by decide)
      · constructor
        · intro hf
          rw [hst0] at hf
          exact absurd hf (by decide)
        · rintro ⟨_, r2, r3, h2, _, h3, h3ok⟩
          rw [hcomp] at h2
          cases h2
          rw [hw0] at h3
          cases h3
          exact h3ok
  · have h0 : (ReadScene env w file_options).1.ok = false := by
      simpa using h1
    refine ⟨ReadScene env w file_options, by simp [Transcode, h0], fun _ => rfl, ?_, ?_⟩
    · intro hf
      exact absurd hf h1
    · constructor
      · intro hf
        exact absurd hf h1
      · intro hf
        exact hf.1

/-- After a load that returned, `TranscodeStream` goes on as its body says. -/
theorem TranscodeStream_of_load (env : Collaborators Opt X) (w : World Opt R X)
    (in_stream out_stream : Stream) (r1 : Status × World Opt R X × Stream)
    (hrss : ReadSceneStream env w in_stream = some r1) :
    TranscodeStream env w in_stream out_stream =
      if (!r1.1.ok) = true then some (r1.1, r1.2.1, r1.2.2, out_stream)
      else
        match CompressScene r1.2.1 with
        | none => none
        | some r2 =>
          if (!r2.1.ok) = true then some (r2.1, r2.2, r1.2.2, out_stream)
          else
            match WriteSceneStream env r2.2 out_stream with
            | none => none
            | some r3 =>
              if (!r3.1.ok) = true then some (r3.1, r3.2.1, r1.2.2, r3.2.2)
              else some (OkStatus, r3.2.1, r1.2.2, r3.2.2) := by
  unfold TranscodeStream
  rw [hrss]

/-- The sequencing of `TranscodeStream` after a load that returned, for a decoder
whose ok results carry a scene. -/
theorem TranscodeStream_sequencing_of_load (env : Collaborators Opt X) (w : World Opt R X)
    (in_stream out_stream : Stream)
    (hbuf : ∀ b, (env.DecodeFromBufferToScene b).ok = true →
      (env.DecodeFromBufferToScene b).value ≠ none) :
    ∀ r1, ReadSceneStream env w in_stream = some r1 →
    ∃ r, TranscodeStream env w in_stream out_stream = some r ∧
      (r1.1.ok = false → r = (r1.1, r1.2.1, r1.2.2, out_stream)) ∧
      (r1.1.ok = true →
        ∃ r2, CompressScene r1.2.1 = some r2 ∧
          (r2.1.ok = false → r = (r2.1, r2.2, r1.2.2, out_stream)) ∧
          (r2.1.ok = true →
            ∃ r3, WriteSceneStream env r2.2 out_stream = some r3 ∧
              (r3.1.ok = false → r = (r3.1, r3.2.1, r1.2.2, r3.2.2)) ∧
              (r3.1.ok = true →
                r = (OkStatus, r3.2.1, r1.2.2, r3.2.2) ∧
                ∃ c1 c3 o sc, r.2.1.calls =
                    w.calls ++ [c1, Call.SetDracoCompressionOptions o sc, c3] ∧
                  c1.isDecode = true ∧ c3.isEncode = true))) ∧
      (r.1.ok = true ↔
        (r1.1.ok = true ∧
          ∃ r2 r3, CompressScene r1.2.1 = some r2 ∧
            r2.1.ok = true ∧ WriteSceneStream env r2.2 out_stream = some r3 ∧
            r3.1.ok = true)) := by
  intro r1 hrss
  by_cases h1 : r1.1.ok = true
  · obtain ⟨buffer, hcase⟩ := ReadSceneStream_some env w in_stream r1 hrss
    have hgood : (env.DecodeFromBufferToScene buffer).ok = true ∧
        r1.2.1 = (w.record (Call.DecodeFromBufferToScene buffer)).setScene
          (env.DecodeFromBufferToScene buffer).value := by
      rcases hcase with ⟨hok, _, heq⟩ | ⟨hbad, hst, _⟩
      · exact ⟨hok, heq⟩
      · rw [hst] at h1
        have : (env.DecodeFromBufferToScene buffer).ok = true := h1
        rw [hbad] at this
        cases this
    obtain ⟨hok, heq⟩ := hgood
    obtain ⟨sc, hsc⟩ := Option.ne_none_iff_exists'.mp (hbuf _ hok)
    have hs1 : r1.2.1.self.scene_ = some sc := by
      rw [heq]
      simpa [World.setScene] using hsc
    have hcomp := CompressScene_of_scene _ sc hs1
    obtain ⟨r3, hw, hr3⟩ := WriteSceneStream_of_scene env
      ((r1.2.1.record (Call.SetDracoCompressionOptions
        r1.2.1.self.transcoding_options_.geometry sc)).setScene
        (some (SetDracoCompressionOptions r1.2.1.self.transcoding_options_.geometry sc)))
      out_stream _ rfl
    by_cases h3 : r3.1.ok = true
    · have hrec : r3.2.1 = _ := hr3.resolve_left (fun hh => by
        rw [h3] at hh
        exact absurd hh.1 (by decide))
      refine ⟨(OkStatus, r3.2.1, r1.2.2, r3.2.2),
        by simp only [TranscodeStream_of_load env w in_stream out_stream r1 hrss, h1, hcomp, hw, OkStatus_ok, h3, Bool.not_true,
          Bool.false_eq_true, if_false], ?_, ?_, ?_⟩
      · intro hf
        rw [h1] at hf
        exact absurd hf (by decide)
      · intro _
        refine ⟨_, hcomp, ?_, ?_⟩
        · intro hf
          exact absurd hf (by simp [OkStatus_ok])
        · intro _
          refine ⟨r3, hw, ?_, ?_⟩
          · intro hf
            rw [h3] at hf
            exact absurd hf (by decide)
          · intro _
            refine ⟨rfl, Call.DecodeFromBufferToScene buffer,
              Call.EncodeToBuffer (SetDracoCompressionOptions
                r1.2.1.self.transcoding_options_.geometry sc),
              r1.2.1.self.transcoding_options_.geometry, sc, ?_, rfl, rfl⟩
            show r3.2.1.calls = _
            rw [hrec]
            simp [World.record, World.setScene, heq]
      · constructor
        · intro _
          exact ⟨h1, _, r3, hcomp, OkStatus_ok, hw, h3⟩
        · intro _
          exact OkStatus_ok
    · have h30 : r3.1.ok = false := by simpa using h3
      refine ⟨(r3.1, r3.2.1, r1.2.2, r3.2.2),
        by simp only [TranscodeStream_of_load env w in_stream out_stream r1 hrss, h1, hcomp, hw, OkStatus_ok, h30, Bool.not_true,
          Bool.not_false, Bool.false_eq_true, if_false, if_true], ?_, ?_, ?_⟩
      · intro hf
        rw [h1] at hf
        exact absurd hf (by decide)
      · intro _
        refine ⟨_, hcomp, ?_, ?_⟩
        · intro hf
          exact absurd hf (by simp [OkStatus_ok])
        · intro _
          refine ⟨r3, hw, fun _ => rfl, ?_⟩
          intro hf
          exact absurd hf h3
      · constructor
        · intro hf
          exact absurd hf h3
        · rintro ⟨_, r2, r3', h2, _, h3', h3ok⟩
          rw [hcomp] at h2
          cases h2
          rw [hw] at h3'
          cases h3'
          exact h3ok
  · have h0 : r1.1.ok = false := by
      simpa using h1
    refine ⟨_, by simp only [TranscodeStream_of_load env w in_stream out_stream r1 hrss, h0, Bool.not_false, if_true], fun _ => rfl,
      ?_, ?_⟩
    · intro hf
      exact absurd hf h1
    · constructor
      · intro hf
        exact absurd hf h1
      · intro hf
        exact hf.1

/-- The sequencing of `TranscodeStream`, for a decoder whose ok results carry a
scene. -/
theorem TranscodeStream_sequencing (env : Collaborators Opt X) (w : World Opt R X)
    (in_stream out_stream : Stream)
    (hbuf : ∀ b, (env.DecodeFromBufferToScene b).ok = true →
      (env.DecodeFromBufferToScene b).value ≠ none) :
    (ReadSceneStream env w in_stream = none →
      TranscodeStream env w in_stream out_stream = none) ∧
    (∀ r1, ReadSceneStream env w in_stream = some r1 →
      ∃ r, TranscodeStream env w in_stream out_stream = some r ∧
        (r1.1.ok = false → r = (r1.1, r1.2.1, r1.2.2, out_stream)) ∧
        (r1.1.ok = true →
          ∃ r2, CompressScene r1.2.1 = some r2 ∧
            (r2.1.ok = false → r = (r2.1, r2.2, r1.2.2, out_stream)) ∧
            (r2.1.ok = true →
              ∃ r3, WriteSceneStream env r2.2 out_stream = some r3 ∧
                (r3.1.ok = false → r = (r3.1, r3.2.1, r1.2.2, r3.2.2)) ∧
                (r3.1.ok = true →
                  r = (OkStatus, r3.2.1, r1.2.2, r3.2.2) ∧
                  ∃ c1 c3 o sc, r.2.1.calls =
                      w.calls ++ [c1, Call.SetDracoCompressionOptions o sc, c3] ∧
                    c1.isDecode = true ∧ c3.isEncode = true))) ∧
        (r.1.ok = true ↔
          (r1.1.ok = true ∧
            ∃ r2 r3, CompressScene r1.2.1 = some r2 ∧
              r2.1.ok = true ∧ WriteSceneStream env r2.2 out_stream = some r3 ∧
              r3.1.ok = true))) ∧
    (in_stream.fail = false → in_stream.readable = true → in_stream.data ≠ [] →
      ∃ r, TranscodeStream env w in_stream out_stream = some r) := by
  refine ⟨?_, TranscodeStream_sequencing_of_load env w in_stream out_stream hbuf, ?_⟩
  · intro hnone
    unfold TranscodeStream
    rw [hnone]
  · intro hf hr hne
    obtain ⟨r, hr1, _⟩ := TranscodeStream_sequencing_of_load env w in_stream out_stream hbuf _
      (ReadSceneStream_readable env w in_stream hf hr hne)
    exact ⟨r, hr1⟩

/-- C1: if the input path is empty, `Transcode` returns the error status
`DRACO_ERROR "Input filename is empty."` (the rejection of an empty required
path), whatever the other fields are, and performs no load: the call log is
unchanged, so no collaborator (in particular the decoder) was invoked, and the
transcoder, with its scene slot, is exactly what it was. -/
theorem Transcode_empty_input_rejected (env : Collaborators Opt X) (w : World Opt R X)
    (file_options : FileOptions) (h : file_options.input_filename = "") :
    ∃ st w1, Transcode env w file_options = some (st, w1) ∧
      st = Status.mk Code.DRACO_ERROR "Input filename is empty." ∧
      st.ok = false ∧ w1.calls = w.calls ∧ w1.self.scene_ = w.self.scene_ ∧ w1 = w := by
  refine ⟨Status.mk Code.DRACO_ERROR "Input filename is empty.", w, ?_, rfl, rfl, rfl, rfl, rfl⟩
  simp [Transcode, ReadScene, h, Status.ok]

/-- C1 instance: a fresh transcoder, empty input path, all other paths set. -/
theorem Transcode_empty_input_rejected_witness :
    (FileOptions.mk "" "out.glb" "out.bin" "res").input_filename = "" ∧
    ∃ st w1, Transcode env0 fresh0 (FileOptions.mk "" "out.glb" "out.bin" "res") = some (st, w1) ∧
      st = Status.mk Code.DRACO_ERROR "Input filename is empty." ∧
      st.ok = false ∧ w1.calls = fresh0.calls ∧ w1.self.scene_ = fresh0.self.scene_ ∧
      w1 = fresh0 :=
  ⟨rfl, Transcode_empty_input_rejected env0 fresh0 (FileOptions.mk "" "out.glb" "out.bin" "res") rfl⟩

/-- C2: if the output path is empty, `Transcode` returns a `DRACO_ERROR` status
for an empty required path (naming the input path when that is empty too, the
output path otherwise) before any write: the call log is unchanged, so the
encoder was never invoked, for every input path, binary path and resource
directory. -/
theorem Transcode_empty_output_rejected (env : Collaborators Opt X) (w : World Opt R X)
    (file_options : FileOptions) (h : file_options.output_filename = "") :
    ∃ st w1, Transcode env w file_options = some (st, w1) ∧
      st.ok = false ∧ st.code = Code.DRACO_ERROR ∧
      st.error_msg = (if file_options.input_filename = "" then "Input filename is empty."
        else "Output filename is empty.") ∧
      w1.calls = w.calls ∧ w1 = w := by
  by_cases hi : file_options.input_filename = ""
  · exact ⟨Status.mk Code.DRACO_ERROR "Input filename is empty.", w,
      by simp [Transcode, ReadScene, hi, Status.ok], rfl, rfl, by simp [hi], rfl, rfl⟩
  · exact ⟨Status.mk Code.DRACO_ERROR "Output filename is empty.", w,
      by simp [Transcode, ReadScene, hi, h, Status.ok], rfl, rfl, by simp [hi], rfl, rfl⟩

/-- C2 instance: a readable input file and an empty output path. -/
theorem Transcode_empty_output_rejected_witness :
    (FileOptions.mk "in.gltf" "" "out.bin" "res").output_filename = "" ∧
    ∃ st w1, Transcode env0 fresh0 (FileOptions.mk "in.gltf" "" "out.bin" "res") = some (st, w1) ∧
      st.ok = false ∧ st.code = Code.DRACO_ERROR ∧
      st.error_msg = (if (FileOptions.mk "in.gltf" "" "out.bin" "res").input_filename = ""
        then "Input filename is empty." else "Output filename is empty.") ∧
      w1.calls = fresh0.calls ∧ w1 = fresh0 :=
  ⟨rfl, Transcode_empty_output_rejected env0 fresh0 (FileOptions.mk "in.gltf" "" "out.bin" "res") rfl⟩

/-- C4: with a scene loaded, `WriteScene` makes exactly one collaborator call, an
encoder call `c` with status `st`, chosen by precedence: binary path and resource
directory both non-empty give the three-path overload; otherwise a non-empty
binary path gives the two-path overload; otherwise (binary path empty, whatever
the resource directory is) the one-path overload on the output path. The result
is `OkStatus` when `st` is ok and `st` itself otherwise, so `WriteScene` succeeds
iff that call succeeds and otherwise returns that call's error. -/
theorem WriteScene_layout_precedence (env : Collaborators Opt X) (w : World Opt R X)
    (file_options : FileOptions) (scene : Scene Opt X) (h : w.self.scene_ = some scene) :
    ∃ c st res, WriteScene env w file_options = some (res, w.record c) ∧
      (w.record c).calls = w.calls ++ [c] ∧ c.isEncode = true ∧ (w.record c).self = w.self ∧
      (file_options.output_bin_filename ≠ "" ∧ file_options.output_resource_directory ≠ "" →
        c = Call.EncodeFile_bin_dir scene file_options.output_filename
              file_options.output_bin_filename file_options.output_resource_directory ∧
        st = env.EncodeFile_bin_dir scene file_options.output_filename
              file_options.output_bin_filename file_options.output_resource_directory) ∧
      (file_options.output_bin_filename ≠ "" ∧ file_options.output_resource_directory = "" →
        c = Call.EncodeFile_bin scene file_options.output_filename
              file_options.output_bin_filename ∧
        st = env.EncodeFile_bin scene file_options.output_filename
              file_options.output_bin_filename) ∧
      (file_options.output_bin_filename = "" →
        c = Call.EncodeFile scene file_options.output_filename ∧
        st = env.EncodeFile scene file_options.output_filename) ∧
      (res.ok = true ↔ st.ok = true) ∧ (st.ok = true → res = OkStatus) ∧
      (st.ok = false → res = st) := by
  have key : ∀ st : Status, ((if st.ok then OkStatus else st).ok = true ↔ st.ok = true) ∧
      (st.ok = true → (if st.ok then OkStatus else st) = OkStatus) ∧
      (st.ok = false → (if st.ok then OkStatus else st) = st) := by
    intro st
    by_cases hc : st.code = Code.OK <;> simp [hc, OkStatus, Status.ok]
  by_cases hb : file_options.output_bin_filename = ""
  · refine ⟨Call.EncodeFile scene file_options.output_filename,
      env.EncodeFile scene file_options.output_filename,
      (if (env.EncodeFile scene file_options.output_filename).ok then OkStatus
        else env.EncodeFile scene file_options.output_filename), ?_, rfl, rfl, rfl,
      fun hh => absurd hb hh.1, fun hh => absurd hb hh.1, fun _ => ⟨rfl, rfl⟩,
      (key _).1, (key _).2.1, (key _).2.2⟩
    cases hst : (env.EncodeFile scene file_options.output_filename).ok <;>
      simp [WriteScene, h, hb, hst]
  · by_cases hd : file_options.output_resource_directory = ""
    · refine ⟨Call.EncodeFile_bin scene file_options.output_filename
          file_options.output_bin_filename,
        env.EncodeFile_bin scene file_options.output_filename file_options.output_bin_filename,
        (if (env.EncodeFile_bin scene file_options.output_filename
            file_options.output_bin_filename).ok then OkStatus
          else env.EncodeFile_bin scene file_options.output_filename
            file_options.output_bin_filename), ?_, rfl, rfl, rfl,
        fun hh => absurd hd hh.2, fun _ => ⟨rfl, rfl⟩, fun hh => absurd hh hb,
        (key _).1, (key _).2.1, (key _).2.2⟩
      cases hst : (env.EncodeFile_bin scene file_options.output_filename
          file_options.output_bin_filename).ok <;>
        simp [WriteScene, h, hb, hd, hst]
    · refine ⟨Call.EncodeFile_bin_dir scene file_options.output_filename
          file_options.output_bin_filename file_options.output_resource_directory,
        env.EncodeFile_bin_dir scene file_options.output_filename
          file_options.output_bin_filename file_options.output_resource_directory,
        (if (env.EncodeFile_bin_dir scene file_options.output_filename
            file_options.output_bin_filename file_options.output_resource_directory).ok
          then OkStatus
          else env.EncodeFile_bin_dir scene file_options.output_filename
            file_options.output_bin_filename file_options.output_resource_directory),
        ?_, rfl, rfl, rfl,
        fun _ => ⟨rfl, rfl⟩, fun hh => absurd hh.2 hd, fun hh => absurd hh hb,
        (key _).1, (key _).2.1, (key _).2.2⟩
      cases hst : (env.EncodeFile_bin_dir scene file_options.output_filename
          file_options.output_bin_filename file_options.output_resource_directory).ok <;>
        simp [WriteScene, h, hb, hd, hst]

/-- C4 instance: a resource directory given without a binary path. -/
theorem WriteScene_layout_precedence_witness :
    loaded0.self.scene_ = some scene0 ∧
    ∃ c st res, WriteScene env0 loaded0 (FileOptions.mk "in.gltf" "out.glb" "" "res") =
        some (res, loaded0.record c) ∧
      (loaded0.record c).calls = loaded0.calls ++ [c] ∧ c.isEncode = true ∧
      (loaded0.record c).self = loaded0.self ∧
      ((FileOptions.mk "in.gltf" "out.glb" "" "res").output_bin_filename ≠ "" ∧
        (FileOptions.mk "in.gltf" "out.glb" "" "res").output_resource_directory ≠ "" →
        c = Call.EncodeFile_bin_dir scene0
              (FileOptions.mk "in.gltf" "out.glb" "" "res").output_filename
              (FileOptions.mk "in.gltf" "out.glb" "" "res").output_bin_filename
              (FileOptions.mk "in.gltf" "out.glb" "" "res").output_resource_directory ∧
        st = env0.EncodeFile_bin_dir scene0
              (FileOptions.mk "in.gltf" "out.glb" "" "res").output_filename
              (FileOptions.mk "in.gltf" "out.glb" "" "res").output_bin_filename
              (FileOptions.mk "in.gltf" "out.glb" "" "res").output_resource_directory) ∧
      ((FileOptions.mk "in.gltf" "out.glb" "" "res").output_bin_filename ≠ "" ∧
        (FileOptions.mk "in.gltf" "out.glb" "" "res").output_resource_directory = "" →
        c = Call.EncodeFile_bin scene0
              (FileOptions.mk "in.gltf" "out.glb" "" "res").output_filename
              (FileOptions.mk "in.gltf" "out.glb" "" "res").output_bin_filename ∧
        st = env0.EncodeFile_bin scene0
              (FileOptions.mk "in.gltf" "out.glb" "" "res").output_filename
              (FileOptions.mk "in.gltf" "out.glb" "" "res").output_bin_filename) ∧
      ((FileOptions.mk "in.gltf" "out.glb" "" "res").output_bin_filename = "" →
        c = Call.EncodeFile scene0
              (FileOptions.mk "in.gltf" "out.glb" "" "res").output_filename ∧
        st = env0.EncodeFile scene0
              (FileOptions.mk "in.gltf" "out.glb" "" "res").output_filename) ∧
      (res.ok = true ↔ st.ok = true) ∧ (st.ok = true → res = OkStatus) ∧
      (st.ok = false → res = st) :=
  ⟨rfl, WriteScene_layout_precedence env0 loaded0 (FileOptions.mk "in.gltf" "out.glb" "" "res")
    scene0 rfl⟩

/-- C5: `Create` yields a transcoder iff `Check` on the geometry options
succeeds. When the check fails, `Create` returns the check's status and no
transcoder; when it succeeds, the transcoder returned stores exactly the options
given and holds no scene. The overload on bare compression options equals
`Create` on the default transcoding options with `geometry` set to that value. -/
theorem Create_iff_Check [Inhabited R] (env : Collaborators Opt X)
    (options : DracoTranscodingOptions Opt R) (geometry : Opt) :
    (((Create env options : StatusOr (DracoTranscoder Opt R X)).value.isSome = true ↔
        (env.Check options.geometry).ok = true) ∧
      ((Create env options : StatusOr (DracoTranscoder Opt R X)).ok = true ↔
        (env.Check options.geometry).ok = true)) ∧
    ((env.Check options.geometry).ok = false →
      (Create env options : StatusOr (DracoTranscoder Opt R X)) =
        { status := env.Check options.geometry, value := none }) ∧
    ((env.Check options.geometry).ok = true →
      (Create env options : StatusOr (DracoTranscoder Opt R X)) =
        { status := OkStatus
          value := some { transcoding_options_ := options, scene_ := none } }) ∧
    (Create_compression env geometry : StatusOr (DracoTranscoder Opt R X)) =
      Create env { geometry := geometry, rest := default } := by
  by_cases hc : (env.Check options.geometry).code = Code.OK <;>
    simp [Create, Create_compression, hc, StatusOr.ok, OkStatus, Status.ok]

/-- C8: with a scene loaded, `CompressScene` returns `OkStatus` and a second
`CompressScene` right after it returns `OkStatus` again and leaves the transcoder
(stored options and scene, hence every mesh's settings) exactly as the first call
left it; after either call every mesh carries the stored geometry options. -/
theorem CompressScene_idempotent (w : World Opt R X) (scene : Scene Opt X)
    (h : w.self.scene_ = some scene) :
    ∃ w1 w2 scene1, CompressScene w = some (OkStatus, w1) ∧
      CompressScene w1 = some (OkStatus, w2) ∧
      w2.self = w1.self ∧
      w1.self.transcoding_options_ = w.self.transcoding_options_ ∧
      w1.self.scene_ = some scene1 ∧
      scene1.meshes.length = scene.meshes.length ∧
      ∀ m ∈ scene1.meshes, m.compression_options = some w.self.transcoding_options_.geometry := by
  have h1 : CompressScene w = some (OkStatus,
      (w.record (Call.SetDracoCompressionOptions w.self.transcoding_options_.geometry
        scene)).setScene
        (some (SetDracoCompressionOptions w.self.transcoding_options_.geometry scene))) := by
    simp only [CompressScene, h]
  refine ⟨_, _, SetDracoCompressionOptions w.self.transcoding_options_.geometry scene,
    h1, rfl, ?_, rfl, rfl, ?_, ?_⟩
  · simp [World.setScene, World.record, SetDracoCompressionOptions, Function.comp_def]
  · simp [SetDracoCompressionOptions]
  · intro m hm
    simp only [SetDracoCompressionOptions, List.mem_map] at hm
    obtain ⟨m0, _, rfl⟩ := hm
    rfl

/-- C8 instance: the transcoder holding `scene0`. -/
theorem CompressScene_idempotent_witness :
    loaded0.self.scene_ = some scene0 ∧
    ∃ w1 w2 scene1, CompressScene loaded0 = some (OkStatus, w1) ∧
      CompressScene w1 = some (OkStatus, w2) ∧
      w2.self = w1.self ∧
      w1.self.transcoding_options_ = loaded0.self.transcoding_options_ ∧
      w1.self.scene_ = some scene1 ∧
      scene1.meshes.length = scene0.meshes.length ∧
      ∀ m ∈ scene1.meshes,
        m.compression_options = some loaded0.self.transcoding_options_.geometry :=
  ⟨rfl, CompressScene_idempotent loaded0 scene0 rfl⟩

/-- The decoders of `env0` return a scene with every ok status. -/
theorem env0_decoders_carry_scene :
    (∀ p, (env0.ReadSceneFromFile p).ok = true → (env0.ReadSceneFromFile p).value ≠ none) ∧
    (∀ b, (env0.DecodeFromBufferToScene b).ok = true →
      (env0.DecodeFromBufferToScene b).value ≠ none) := by
  constructor
  · intro p
    by_cases hp : p = "in.gltf" <;> simp [env0, hp, StatusOr.ok, Status.ok]
  · intro b
    by_cases hb : b = [1, 2, 3] <;> simp [env0, hb, StatusOr.ok, Status.ok]

/-- C6: `Transcode` and `TranscodeStream` run load, compress, write in that order
and stop at the first phase that fails (for decoders whose ok results carry a
scene). `Transcode` returns a result `r`. If the load fails, `r` is the load's
status and world: nothing later ran. If the load succeeds, compress runs on the
loaded world; if compress fails, `r` is its status and world; if it succeeds,
write runs on the compressed world and `r` carries write's world, with write's
status when that is an error and `OkStatus` otherwise. On success the calls
added to the log are a decoder call, the compression helper and an encoder call,
in that order; and `r` is ok iff the three phases are ok. `TranscodeStream` does
the same from the result of its load on: it returns whenever the load returns,
which the load does on every source that has not failed, delivers characters
and is not empty, and it has no result when the load has none. -/
theorem Transcode_load_compress_write_fail_fast (env : Collaborators Opt X) (w : World Opt R X)
    (file_options : FileOptions) (in_stream out_stream : Stream)
    (hfile : ∀ p, (env.ReadSceneFromFile p).ok = true → (env.ReadSceneFromFile p).value ≠ none)
    (hbuf : ∀ b, (env.DecodeFromBufferToScene b).ok = true →
      (env.DecodeFromBufferToScene b).value ≠ none) :
    (∃ r, Transcode env w file_options = some r ∧
      ((ReadScene env w file_options).1.ok = false → r = ReadScene env w file_options) ∧
      ((ReadScene env w file_options).1.ok = true →
        ∃ r2, CompressScene (ReadScene env w file_options).2 = some r2 ∧
          (r2.1.ok = false → r = r2) ∧
          (r2.1.ok = true →
            ∃ r3, WriteScene env r2.2 file_options = some r3 ∧
              (r3.1.ok = false → r = r3) ∧
              (r3.1.ok = true → r = (OkStatus, r3.2) ∧
                ∃ c1 c3 o sc, r.2.calls =
                    w.calls ++ [c1, Call.SetDracoCompressionOptions o sc, c3] ∧
                  c1.isDecode = true ∧ c3.isEncode = true))) ∧
      (r.1.ok = true ↔
        ((ReadScene env w file_options).1.ok = true ∧
          ∃ r2 r3, CompressScene (ReadScene env w file_options).2 = some r2 ∧
            r2.1.ok = true ∧ WriteScene env r2.2 file_options = some r3 ∧
            r3.1.ok = true))) ∧
    ((ReadSceneStream env w in_stream = none →
       TranscodeStream env w in_stream out_stream = none) ∧
     (∀ r1, ReadSceneStream env w in_stream = some r1 →
       ∃ r, TranscodeStream env w in_stream out_stream = some r ∧
         (r1.1.ok = false → r = (r1.1, r1.2.1, r1.2.2, out_stream)) ∧
         (r1.1.ok = true →
           ∃ r2, CompressScene r1.2.1 = some r2 ∧
             (r2.1.ok = false → r = (r2.1, r2.2, r1.2.2, out_stream)) ∧
             (r2.1.ok = true →
               ∃ r3, WriteSceneStream env r2.2 out_stream = some r3 ∧
                 (r3.1.ok = false → r = (r3.1, r3.2.1, r1.2.2, r3.2.2)) ∧
                 (r3.1.ok = true →
                   r = (OkStatus, r3.2.1, r1.2.2, r3.2.2) ∧
                   ∃ c1 c3 o sc, r.2.1.calls =
                       w.calls ++ [c1, Call.SetDracoCompressionOptions o sc, c3] ∧
                     c1.isDecode = true ∧ c3.isEncode = true))) ∧
         (r.1.ok = true ↔
           (r1.1.ok = true ∧
             ∃ r2 r3, CompressScene r1.2.1 = some r2 ∧
               r2.1.ok = true ∧ WriteSceneStream env r2.2 out_stream = some r3 ∧
               r3.1.ok = true))) ∧
     (in_stream.fail = false → in_stream.readable = true → in_stream.data ≠ [] →
       ∃ r, TranscodeStream env w in_stream out_stream = some r)) :=
  ⟨Transcode_sequencing env w file_options hfile,
    TranscodeStream_sequencing env w in_stream out_stream hbuf⟩

/-- C6 instance: a fresh transcoder, a readable input whose output file is
refused by the encoder, and a stream pair with an empty destination. -/
theorem Transcode_load_compress_write_fail_fast_witness :
    (∀ p, (env0.ReadSceneFromFile p).ok = true → (env0.ReadSceneFromFile p).value ≠ none) ∧
    (∀ b, (env0.DecodeFromBufferToScene b).ok = true →
      (env0.DecodeFromBufferToScene b).value ≠ none) ∧
    (∃ r, Transcode env0 fresh0 files0 = some r ∧
      ((ReadScene env0 fresh0 files0).1.ok = false → r = ReadScene env0 fresh0 files0) ∧
      ((ReadScene env0 fresh0 files0).1.ok = true →
        ∃ r2, CompressScene (ReadScene env0 fresh0 files0).2 = some r2 ∧
          (r2.1.ok = false → r = r2) ∧
          (r2.1.ok = true →
            ∃ r3, WriteScene env0 r2.2 files0 = some r3 ∧
              (r3.1.ok = false → r = r3) ∧
              (r3.1.ok = true → r = (OkStatus, r3.2) ∧
                ∃ c1 c3 o sc, r.2.calls =
                    fresh0.calls ++ [c1, Call.SetDracoCompressionOptions o sc, c3] ∧
                  c1.isDecode = true ∧ c3.isEncode = true))) ∧
      (r.1.ok = true ↔
        ((ReadScene env0 fresh0 files0).1.ok = true ∧
          ∃ r2 r3, CompressScene (ReadScene env0 fresh0 files0).2 = some r2 ∧
            r2.1.ok = true ∧ WriteScene env0 r2.2 files0 = some r3 ∧
            r3.1.ok = true))) ∧
    ((ReadSceneStream env0 fresh0 source0 = none →
       TranscodeStream env0 fresh0 source0 sink0 = none) ∧
     (∀ r1, ReadSceneStream env0 fresh0 source0 = some r1 →
       ∃ r, TranscodeStream env0 fresh0 source0 sink0 = some r ∧
         (r1.1.ok = false → r = (r1.1, r1.2.1, r1.2.2, sink0)) ∧
         (r1.1.ok = true →
           ∃ r2, CompressScene r1.2.1 = some r2 ∧
             (r2.1.ok = false → r = (r2.1, r2.2, r1.2.2, sink0)) ∧
             (r2.1.ok = true →
               ∃ r3, WriteSceneStream env0 r2.2 sink0 = some r3 ∧
                 (r3.1.ok = false → r = (r3.1, r3.2.1, r1.2.2, r3.2.2)) ∧
                 (r3.1.ok = true →
                   r = (OkStatus, r3.2.1, r1.2.2, r3.2.2) ∧
                   ∃ c1 c3 o sc, r.2.1.calls =
                       fresh0.calls ++ [c1, Call.SetDracoCompressionOptions o sc, c3] ∧
                     c1.isDecode = true ∧ c3.isEncode = true))) ∧
         (r.1.ok = true ↔
           (r1.1.ok = true ∧
             ∃ r2 r3, CompressScene r1.2.1 = some r2 ∧
               r2.1.ok = true ∧ WriteSceneStream env0 r2.2 sink0 = some r3 ∧
               r3.1.ok = true))) ∧
     (source0.fail = false → source0.readable = true → source0.data ≠ [] →
       ∃ r, TranscodeStream env0 fresh0 source0 sink0 = some r)) :=
  ⟨env0_decoders_carry_scene.1, env0_decoders_carry_scene.2,
    Transcode_load_compress_write_fail_fast env0 fresh0 files0 source0 sink0
      env0_decoders_carry_scene.1 env0_decoders_carry_scene.2⟩

/-- C10 fails in its last clause: on the fresh transcoder, with a readable input
and an output file the encoder refuses, `Transcode` fails (the load succeeded,
the write returned the encoder's error) and the slot holds the loaded scene with
the options stamped on it. -/
theorem scene_slot_counterexample :
    fresh0.self.scene_ = none ∧
    (ReadScene env0 fresh0 files0).1.ok = true ∧
    (Transcode env0 fresh0 files0).map (fun r => (r.1, r.2.self.scene_)) =
      some (Status.mk Code.IO_ERROR "Unable to write.",
        some (SetDracoCompressionOptions 5 scene0)) ∧
    (Status.mk Code.IO_ERROR "Unable to write.").ok = false := by
  decide

/-- C10 amended: the scene slot is assigned only by a successful load. A file load
with an empty input or output path fails and leaves the world as it is; with both
paths set it calls the decoder once, and on an ok answer returns `OkStatus` with
the slot holding exactly the decoder's value (whatever it held before) and the
stored options kept, on an error returns the decoder's status with the
transcoder as it was. A stream load that returns has called the decoder once on
some buffer, with the same two outcomes; it returns, with the whole content as
buffer, on every source that has not failed, delivers characters and is not
empty. Hence a transcoder that holds no scene still holds none after a
`Transcode` or `TranscodeStream` whose load fails. The other phases never empty
or refill the slot: the write phases leave the transcoder as it is, and
`CompressScene` keeps the scene it found, with the options stamped on its
meshes. -/
theorem scene_slot_set_only_by_successful_load (env : Collaborators Opt X) (w : World Opt R X)
    (file_options : FileOptions) (in_stream out_stream : Stream) :
    ((file_options.input_filename = "" ∨ file_options.output_filename = "") →
      (ReadScene env w file_options).1.ok = false ∧ (ReadScene env w file_options).2 = w) ∧
    (file_options.input_filename ≠ "" → file_options.output_filename ≠ "" →
      (env.ReadSceneFromFile file_options.input_filename).ok = true →
      ReadScene env w file_options =
        (OkStatus, (w.record (Call.ReadSceneFromFile file_options.input_filename)).setScene
          (env.ReadSceneFromFile file_options.input_filename).value) ∧
      (ReadScene env w file_options).2.self.scene_ =
        (env.ReadSceneFromFile file_options.input_filename).value ∧
      (ReadScene env w file_options).2.self.transcoding_options_ =
        w.self.transcoding_options_) ∧
    (file_options.input_filename ≠ "" → file_options.output_filename ≠ "" →
      (env.ReadSceneFromFile file_options.input_filename).ok = false →
      ReadScene env w file_options =
        ((env.ReadSceneFromFile file_options.input_filename).status,
          w.record (Call.ReadSceneFromFile file_options.input_filename)) ∧
      (ReadScene env w file_options).2.self = w.self) ∧
    (∀ r, ReadSceneStream env w in_stream = some r →
      ∃ buffer, r.2.1.calls = w.calls ++ [Call.DecodeFromBufferToScene buffer] ∧
        ((env.DecodeFromBufferToScene buffer).ok = true →
          r.1 = OkStatus ∧
          r.2.1.self.scene_ = (env.DecodeFromBufferToScene buffer).value ∧
          r.2.1.self.transcoding_options_ = w.self.transcoding_options_) ∧
        ((env.DecodeFromBufferToScene buffer).ok = false →
          r.1 = (env.DecodeFromBufferToScene buffer).status ∧ r.2.1.self = w.self)) ∧
    (in_stream.fail = false → in_stream.readable = true → in_stream.data ≠ [] →
      ∃ r, ReadSceneStream env w in_stream = some r ∧
        r.2.1.calls = w.calls ++ [Call.DecodeFromBufferToScene in_stream.data] ∧
        ((env.DecodeFromBufferToScene in_stream.data).ok = true →
          r.1 = OkStatus ∧
          r.2.1.self.scene_ = (env.DecodeFromBufferToScene in_stream.data).value) ∧
        ((env.DecodeFromBufferToScene in_stream.data).ok = false →
          r.1 = (env.DecodeFromBufferToScene in_stream.data).status ∧
          r.2.1.self = w.self)) ∧
    (w.self.scene_ = none → (ReadScene env w file_options).1.ok = false →
      ∃ st w1, Transcode env w file_options = some (st, w1) ∧ st.ok = false ∧
        st = (ReadScene env w file_options).1 ∧ w1.self.scene_ = none) ∧
    (w.self.scene_ = none → ∀ r1, ReadSceneStream env w in_stream = some r1 →
      r1.1.ok = false →
      TranscodeStream env w in_stream out_stream =
        some (r1.1, r1.2.1, r1.2.2, out_stream) ∧ r1.2.1.self.scene_ = none) ∧
    (∀ r, WriteScene env w file_options = some r → r.2.self = w.self) ∧
    (∀ r, WriteSceneStream env w out_stream = some r → r.2.1.self = w.self) ∧
    (∀ r, CompressScene w = some r →
      ∃ scene, w.self.scene_ = some scene ∧
        r.2.self.scene_ =
          some (SetDracoCompressionOptions w.self.transcoding_options_.geometry scene) ∧
        r.2.self.transcoding_options_ = w.self.transcoding_options_) := by
  refine ⟨?_, ?_, ?_, ?_, ?_, ?_, ?_, ?_, ?_, ?_⟩
  · rintro (hi | ho)
    · simp [ReadScene, hi, Status.ok]
    · by_cases hi : file_options.input_filename = ""
      · simp [ReadScene, hi, Status.ok]
      · simp [ReadScene, hi, ho, Status.ok]
  · intro hi ho hok
    have hrun : ReadScene env w file_options =
        (OkStatus, (w.record (Call.ReadSceneFromFile file_options.input_filename)).setScene
          (env.ReadSceneFromFile file_options.input_filename).value) := by
      simp [ReadScene, hi, ho, hok]
    refine ⟨hrun, ?_, ?_⟩
    · rw [hrun]
      rfl
    · rw [hrun]
      rfl
  · intro hi ho hbad
    have hrun : ReadScene env w file_options =
        ((env.ReadSceneFromFile file_options.input_filename).status,
          w.record (Call.ReadSceneFromFile file_options.input_filename)) := by
      simp [ReadScene, hi, ho, hbad]
    refine ⟨hrun, ?_⟩
    rw [hrun]
    rfl
  · intro r hr
    obtain ⟨buffer, hcase⟩ := ReadSceneStream_some env w in_stream r hr
    refine ⟨buffer, ?_, ?_, ?_⟩
    · rcases hcase with ⟨_, _, heq⟩ | ⟨_, _, heq⟩ <;> rw [heq] <;> rfl
    · intro hok
      rcases hcase with ⟨_, hst, heq⟩ | ⟨hbad, _, _⟩
      · refine ⟨hst, ?_, ?_⟩ <;> rw [heq] <;> rfl
      · rw [hok] at hbad
        cases hbad
    · intro hbad
      rcases hcase with ⟨hok, _, _⟩ | ⟨_, hst, heq⟩
      · rw [hbad] at hok
        cases hok
      · refine ⟨hst, ?_⟩
        rw [heq]
        rfl
  · intro hf hr hne
    have hrun := ReadSceneStream_readable env w in_stream hf hr hne
    cases hok : (env.DecodeFromBufferToScene in_stream.data).ok with
    | false =>
      rw [hok] at hrun
      simp only [Bool.not_false, if_true] at hrun
      exact ⟨_, hrun, rfl, fun hh => (by cases hh), fun _ => ⟨rfl, rfl⟩⟩
    | true =>
      rw [hok] at hrun
      simp only [Bool.not_true, Bool.false_eq_true, if_false] at hrun
      exact ⟨_, hrun, rfl, fun _ => ⟨rfl, rfl⟩, fun hh => (by cases hh)⟩
  · intro hs hf
    refine ⟨(ReadScene env w file_options).1, (ReadScene env w file_options).2, ?_, hf, rfl, ?_⟩
    · simp [Transcode, hf]
    · rw [(ReadScene_failed env w file_options hf).1]
      exact hs
  · intro hs r1 hr1 hf
    refine ⟨?_, ?_⟩
    · rw [TranscodeStream_of_load env w in_stream out_stream r1 hr1]
      simp only [hf, Bool.not_false, if_true]
    · rw [(ReadSceneStream_failed env w in_stream r1 hr1 hf).1]
      exact hs
  · intro r hr
    cases hs : w.self.scene_ with
    | none => simp [WriteScene, hs] at hr
    | some scene =>
      obtain ⟨c, st, _, hw⟩ := WriteScene_of_scene env w file_options scene hs
      rw [hw] at hr
      cases hr
      rfl
  · intro r hr
    unfold WriteSceneStream at hr
    simp only at hr
    split_ifs at hr with he
    · cases hr
      rfl
    · cases hs : w.self.scene_ with
      | none => simp [hs] at hr
      | some scene =>
        simp only [hs] at hr
        split_ifs at hr with hok <;> cases hr <;> rfl
  · intro r hr
    cases hs : w.self.scene_ with
    | none => simp [CompressScene, hs] at hr
    | some scene =>
      rw [CompressScene_of_scene w scene hs] at hr
      cases hr
      exact ⟨scene, rfl, rfl, rfl⟩

/-- C7 fails on the transcoder that `Create` returns, which holds no scene:
`CompressScene` and `WriteScene` return no status at all, so no error status,
and neither does `WriteSceneStream` on an empty destination; on a good
destination holding one byte `WriteSceneStream` returns the `IO_ERROR` of its
emptiness test, the status it returns there with a scene as well. -/
theorem phases_without_scene_counterexample :
    (Create env0 { geometry := 5, rest := () }).value = some fresh0.self ∧
    fresh0.self.scene_ = none ∧
    (¬ ∃ st w1, CompressScene fresh0 = some (st, w1) ∧ st.ok = false) ∧
    (¬ ∃ st w1, WriteScene env0 fresh0 files0 = some (st, w1) ∧ st.ok = false) ∧
    (¬ ∃ st w1 s1, WriteSceneStream env0 fresh0 sink0 = some (st, w1, s1) ∧ st.ok = false) ∧
    WriteSceneStream env0 fresh0 full0 =
      some (Status.mk Code.IO_ERROR "Output Stream contains data. Make sure stream has no data.",
        fresh0, sstream [7] 1 1) ∧
    WriteSceneStream env0 loaded0 full0 =
      some (Status.mk Code.IO_ERROR "Output Stream contains data. Make sure stream has no data.",
        loaded0, sstream [7] 1 1) := by
  refine ⟨by decide, rfl, ?_, ?_, ?_, by decide, by decide⟩
  · rintro ⟨st, w1, h, _⟩
    have hn : CompressScene fresh0 = none := rfl
    rw [hn] at h
    cases h
  · rintro ⟨st, w1, h, _⟩
    have hn : WriteScene env0 fresh0 files0 = none := rfl
    rw [hn] at h
    cases h
  · rintro ⟨st, w1, s1, h, _⟩
    have hn : WriteSceneStream env0 fresh0 sink0 = none := by decide
    rw [hn] at h
    cases h

/-- C7 amended: no phase tests for a scene or returns an error for a missing one.
Whatever a transcoder holds, `CompressScene` returns only `OkStatus`, the only
errors of `WriteScene` are those of its encoder call, and the only errors of
`WriteSceneStream` are the `IO_ERROR` of its emptiness test and that of its
encoder call. On a transcoder that holds no scene, `CompressScene` and
`WriteScene` dereference the empty slot and have no defined result;
`WriteSceneStream` returns the `IO_ERROR` of its emptiness test, with the world
and the bytes of the stream unchanged, on a destination that has not failed,
can be repositioned and is not empty, and has no defined result on any other
destination. The drivers do not reach these phases after a failed load: they
return the load's status and world, with the transcoder as it was and the log
longer by at most the one decoder call. -/
theorem phases_without_scene_unguarded (env : Collaborators Opt X) (w : World Opt R X)
    (file_options : FileOptions) (stream in_stream out_stream : Stream)
    (h : w.self.scene_ = none) :
    (∀ (v : World Opt R X) r, CompressScene v = some r → r.1 = OkStatus) ∧
    (∀ (v : World Opt R X) r, WriteScene env v file_options = some r → r.1.ok = false →
      ∃ scene, v.self.scene_ = some scene ∧
        (r.1 = env.EncodeFile scene file_options.output_filename ∨
          r.1 = env.EncodeFile_bin scene file_options.output_filename
            file_options.output_bin_filename ∨
          r.1 = env.EncodeFile_bin_dir scene file_options.output_filename
            file_options.output_bin_filename file_options.output_resource_directory)) ∧
    (∀ (v : World Opt R X) r, WriteSceneStream env v stream = some r → r.1.ok = false →
      (r.1 = Status.mk Code.IO_ERROR
          "Output Stream contains data. Make sure stream has no data." ∧ r.2.1 = v) ∨
      (∃ scene, v.self.scene_ = some scene ∧ r.1 = (env.EncodeToBuffer scene).1 ∧
        r.2.1 = v.record (Call.EncodeToBuffer scene))) ∧
    CompressScene w = none ∧
    WriteScene env w file_options = none ∧
    (stream.fail = false → stream.seekable = true → stream.data ≠ [] →
      ∃ s1, WriteSceneStream env w stream =
          some (Status.mk Code.IO_ERROR
            "Output Stream contains data. Make sure stream has no data.", w, s1) ∧
        s1.data = stream.data) ∧
    ((stream.fail = true ∨ stream.seekable = false ∨ stream.data = []) →
      WriteSceneStream env w stream = none) ∧
    ((ReadScene env w file_options).1.ok = false →
      Transcode env w file_options = some (ReadScene env w file_options) ∧
      (ReadScene env w file_options).2.self = w.self ∧
      ((ReadScene env w file_options).2.calls = w.calls ∨
        (ReadScene env w file_options).2.calls =
          w.calls ++ [Call.ReadSceneFromFile file_options.input_filename])) ∧
    (∀ r1, ReadSceneStream env w in_stream = some r1 → r1.1.ok = false →
      TranscodeStream env w in_stream out_stream =
        some (r1.1, r1.2.1, r1.2.2, out_stream) ∧
      r1.2.1.self = w.self ∧
      ∃ buffer, r1.2.1.calls = w.calls ++ [Call.DecodeFromBufferToScene buffer]) := by
  refine ⟨?_, ?_, ?_, by simp [CompressScene, h], by simp [WriteScene, h], ?_, ?_, ?_, ?_⟩
  · intro v r hr
    cases hs : v.self.scene_ with
    | none => simp [CompressScene, hs] at hr
    | some scene =>
      rw [CompressScene_of_scene v scene hs] at hr
      cases hr
      rfl
  · intro v r hr hbad
    exact WriteScene_errors env v file_options r hr hbad
  · intro v r hr hbad
    exact WriteSceneStream_errors env v stream r hr hbad
  · intro hf hs hne
    refine ⟨_, WriteSceneStream_positionable_nonempty env w stream hf hs hne, ?_⟩
    rcases stream with
      ⟨kind, is_open, mode_in, mode_out, data, gpos, ppos, eofbit, failbit, badbit⟩
    cases kind <;> rfl
  · intro hcase
    rw [WriteSceneStream_test_passed env w stream hcase, h]
  · intro hf
    exact ⟨by simp [Transcode, hf], ReadScene_failed env w file_options hf⟩
  · intro r1 hr1 hf
    refine ⟨?_, ReadSceneStream_failed env w in_stream r1 hr1 hf⟩
    rw [TranscodeStream_of_load env w in_stream out_stream r1 hr1]
    simp only [hf, Bool.not_false, if_true]

/-- C7 amended, instance: the fresh transcoder, an input file the decoder cannot
read, a source stream it cannot parse and a good destination holding one byte. -/
theorem phases_without_scene_unguarded_witness :
    fresh0.self.scene_ = none ∧
    (∀ (v : World Nat Unit Nat) r, CompressScene v = some r → r.1 = OkStatus) ∧
    (∀ (v : World Nat Unit Nat) r, WriteScene env0 v files1 = some r → r.1.ok = false →
      ∃ scene, v.self.scene_ = some scene ∧
        (r.1 = env0.EncodeFile scene files1.output_filename ∨
          r.1 = env0.EncodeFile_bin scene files1.output_filename
            files1.output_bin_filename ∨
          r.1 = env0.EncodeFile_bin_dir scene files1.output_filename
            files1.output_bin_filename files1.output_resource_directory)) ∧
    (∀ (v : World Nat Unit Nat) r, WriteSceneStream env0 v full0 = some r → r.1.ok = false →
      (r.1 = Status.mk Code.IO_ERROR
          "Output Stream contains data. Make sure stream has no data." ∧ r.2.1 = v) ∨
      (∃ scene, v.self.scene_ = some scene ∧ r.1 = (env0.EncodeToBuffer scene).1 ∧
        r.2.1 = v.record (Call.EncodeToBuffer scene))) ∧
    CompressScene fresh0 = none ∧
    WriteScene env0 fresh0 files1 = none ∧
    (full0.fail = false → full0.seekable = true → full0.data ≠ [] →
      ∃ s1, WriteSceneStream env0 fresh0 full0 =
          some (Status.mk Code.IO_ERROR
            "Output Stream contains data. Make sure stream has no data.", fresh0, s1) ∧
        s1.data = full0.data) ∧
    ((full0.fail = true ∨ full0.seekable = false ∨ full0.data = []) →
      WriteSceneStream env0 fresh0 full0 = none) ∧
    ((ReadScene env0 fresh0 files1).1.ok = false →
      Transcode env0 fresh0 files1 = some (ReadScene env0 fresh0 files1) ∧
      (ReadScene env0 fresh0 files1).2.self = fresh0.self ∧
      ((ReadScene env0 fresh0 files1).2.calls = fresh0.calls ∨
        (ReadScene env0 fresh0 files1).2.calls =
          fresh0.calls ++ [Call.ReadSceneFromFile files1.input_filename])) ∧
    (∀ r1, ReadSceneStream env0 fresh0 source1 = some r1 → r1.1.ok = false →
      TranscodeStream env0 fresh0 source1 sink0 =
        some (r1.1, r1.2.1, r1.2.2, sink0) ∧
      r1.2.1.self = fresh0.self ∧
      ∃ buffer, r1.2.1.calls = fresh0.calls ++ [Call.DecodeFromBufferToScene buffer]) :=
  ⟨rfl, phases_without_scene_unguarded env0 fresh0 files1 full0 source1 sink0 rfl⟩

end Theorems

end draco
